import Mathlib

/-!
Verification of the US chess tournament directory front-end.

This file is a shallow embedding of the front-end's core logic
(`utils.js`, `app.js`, and the details view) together with proofs about
it.  JavaScript numbers that can be `NaN` are modelled by `JsNum α`
(`nan` marks a missing or non-numeric coordinate; `num x` a finite
value); a field that can be `null` is an `Option`; a fallible
computation is an `Except`.  The transcendental haversine formula is
embedded over the real numbers; all list- and cache-level logic is
generic in a linear ordered field `α`, so it can be run on `ℚ` and
instantiated with `ℝ` for the haversine distance.
-/

/-- A JavaScript number that may be `NaN`: `nan` models `NaN` (and a
coordinate that is `undefined` or otherwise not a number, since the
arithmetic in `haversineMiles` turns those into `NaN`); `num x` models a
finite numeric value. -/
inductive JsNum (α : Type) where
  | nan : JsNum α
  | num (x : α) : JsNum α
deriving DecidableEq

/-- `true` exactly on the `nan` value. -/
def JsNum.isNan {α : Type} : JsNum α → Bool
  | .nan => true
  | .num _ => false

/-- One tournament listing from the feed (`events.json` record).  Dates
are modelled by their parsed timestamps (`new Date(...).getTime()`). -/
structure Event (α : Type) where
  id : String
  name : String
  city : String
  state : String
  venue : String
  startDate : Int
  endDate : Int
  lat : JsNum α
  lon : JsNum α
  sourceId : String
deriving DecidableEq

/-- The record built by the pipeline's `map` stage: the spread
`{ ...event, distance }` keeps every event field and adds a `distance`
that is `null` (`none`) when no city anchor is set. -/
structure VisibleEvent (α : Type) where
  ev : Event α
  distance : Option (JsNum α)
deriving DecidableEq

/-- The persisted city filter (`{label, lat, lon}` from a geocode hit). -/
structure CityAnchor (α : Type) where
  label : String
  lat : JsNum α
  lon : JsNum α
deriving DecidableEq

/-! ### Constants from `utils.js` -/

/-- `utils.js`: local-storage key of the cached feed snapshot. -/
def CACHE_KEY : String := "us-chess-radar-events-v1"

/-- `utils.js`: local-storage key of the persisted city anchor. -/
def CITY_KEY : String := "us-chess-radar-city-v1"

/-- `utils.js`: cache time-to-live, `24 * 60 * 60 * 1000` milliseconds. -/
def CACHE_TTL_MS : Int := 24 * 60 * 60 * 1000

/-- `utils.js`: the fixed 100-mile search radius. -/
def SEARCH_RADIUS_MILES {α : Type} [LinearOrderedField α] : α := 100

/-! ### Distance function (`utils.js`, `haversineMiles`) -/

/-- Degree-to-radian conversion, the inner `toRad` of `haversineMiles`:
`(deg * Math.PI) / 180`. -/
noncomputable def toRad (deg : ℝ) : ℝ := deg * Real.pi / 180

/-- `utils.js` `haversineMiles`: great-circle distance in miles between
two coordinates, Earth radius `R = 3958.8` miles, embedded over the
exact reals. -/
noncomputable def haversineMiles (lat1 lon1 lat2 lon2 : ℝ) : ℝ :=
  2 * 3958.8 *
    Real.arcsin (Real.sqrt
      (Real.sin (toRad (lat2 - lat1) / 2) ^ 2 +
        Real.cos (toRad lat1) * Real.cos (toRad lat2) *
          Real.sin (toRad (lon2 - lon1) / 2) ^ 2))

/-- Lifts a four-argument numeric formula to `NaN`-carrying JavaScript
numbers: if any argument is `NaN` the result is `NaN`, which is exactly
how the arithmetic and `Math` calls inside `haversineMiles` behave. -/
def liftJs {α : Type} (g : α → α → α → α → α) :
    JsNum α → JsNum α → JsNum α → JsNum α → JsNum α
  | .num a, .num b, .num c, .num d => .num (g a b c d)
  | _, _, _, _ => .nan

/-- The distance function as the app actually calls it: `haversineMiles`
on JavaScript numbers, propagating `NaN`. -/
noncomputable def haversineJs :
    JsNum ℝ → JsNum ℝ → JsNum ℝ → JsNum ℝ → JsNum ℝ :=
  liftJs haversineMiles

/-! ### Filter/sort pipeline (`app.js`, `computeVisibleEvents`) -/

/-- First pipeline stage, the filter callback
`selectedState === "all" ? true : event.state === selectedState`. -/
def stateMatches {α : Type} (selectedState : String) (e : Event α) : Bool :=
  if selectedState = "all" then true else e.state == selectedState

/-- Second pipeline stage, the `map` callback: with no city anchor the
new record's `distance` is `null`; otherwise it is the distance from the
anchor to the event's coordinates. -/
def attachDistance {α : Type}
    (dist : JsNum α → JsNum α → JsNum α → JsNum α → JsNum α)
    (cityAnchor : Option (CityAnchor α)) (e : Event α) : VisibleEvent α :=
  match cityAnchor with
  | none => ⟨e, none⟩
  | some c => ⟨e, some (dist c.lat c.lon e.lat e.lon)⟩

/-- JavaScript's `d <= r` on a `distance` value: `null` coerces to `0`
(so `null <= 100` is `true`), any comparison with `NaN` is `false`, and
numbers compare normally. -/
def jsLe {α : Type} [LinearOrderedField α] (d : Option (JsNum α)) (r : α) : Bool :=
  match d with
  | none => decide ((0 : α) ≤ r)
  | some .nan => false
  | some (.num x) => decide (x ≤ r)

/-- Third pipeline stage, the filter callback
`appState.city ? event.distance <= SEARCH_RADIUS_MILES : true`. -/
def withinRadius {α : Type} [LinearOrderedField α]
    (cityAnchor : Option (CityAnchor α)) (v : VisibleEvent α) : Bool :=
  match cityAnchor with
  | none => true
  | some _ => jsLe v.distance SEARCH_RADIUS_MILES

/-- Stable insertion into a list ordered by `startDate`: the new element
goes before the first element with a later-or-equal start date, i.e.
after every earlier-inserted element with the same date. -/
def insertByDate {α : Type} (v : VisibleEvent α) :
    List (VisibleEvent α) → List (VisibleEvent α)
  | [] => [v]
  | w :: ws =>
    if v.ev.startDate ≤ w.ev.startDate then v :: w :: ws
    else w :: insertByDate v ws

/-- The pipeline's `sort((a, b) => new Date(a.startDate) - new Date(b.startDate))`.
ECMAScript's `Array.prototype.sort` is a stable sort, and with a
consistent numeric comparator the stable sorted result is unique, so the
stable insertion sort below is the faithful denotation. -/
def sortByStartDate {α : Type} :
    List (VisibleEvent α) → List (VisibleEvent α)
  | [] => []
  | v :: vs => insertByDate v (sortByStartDate vs)

/-- `app.js` `computeVisibleEvents`, with its state made explicit: the
filter-by-state, map-in-distance, filter-by-radius, sort-by-date chain,
generic in the distance function it calls. -/
def computeVisibleEvents {α : Type} [LinearOrderedField α]
    (dist : JsNum α → JsNum α → JsNum α → JsNum α → JsNum α)
    (allEvents : List (Event α)) (selectedState : String)
    (cityAnchor : Option (CityAnchor α)) : List (VisibleEvent α) :=
  sortByStartDate
    (((allEvents.filter (stateMatches selectedState)).map
        (attachDistance dist cityAnchor)).filter (withinRadius cityAnchor))

/-- The pipeline as instantiated by the running app: the distance
function is the haversine formula on JavaScript numbers. -/
noncomputable def visibleEventsApp (allEvents : List (Event ℝ))
    (selectedState : String) (cityAnchor : Option (CityAnchor ℝ)) :
    List (VisibleEvent ℝ) :=
  computeVisibleEvents haversineJs allEvents selectedState cityAnchor

/-! ### Feed loader (`app.js`: `cacheIsFresh`, `fetchPublishedEvents`,
`loadEvents`) -/

/-- The parsed value stored under `CACHE_KEY`.  `syncedAt` is `none`
when the field is absent or falsy (the `!cache?.syncedAt` test);
`events` is `none` when the field is not an array
(the `!Array.isArray(cache.events)` test). -/
structure CacheEntry (ε : Type) where
  syncedAt : Option Int
  events : Option (List ε)
deriving DecidableEq

/-- `app.js` `cacheIsFresh`: a cached entry is fresh only if it exists,
has a truthy `syncedAt`, an array `events`, and
`Date.now() - syncedAt < CACHE_TTL_MS`. -/
def cacheIsFresh {ε : Type} (now : Int) (cache : Option (CacheEntry ε)) : Bool :=
  match cache with
  | none => false
  | some c =>
    match c.syncedAt, c.events with
    | some t, some _ => decide (now - t < CACHE_TTL_MS)
    | _, _ => false

/-- A decoded `events.json` payload: `events` is `none` when the field
is not an array, `syncedAt` is `none` when absent or falsy. -/
structure FeedPayload (ε : Type) where
  events : Option (List ε)
  syncedAt : Option Int
deriving DecidableEq

/-- The outcome of the single `fetch` of the feed: the promise rejects
(`netFail`), or an HTTP response arrives with a success flag
(`response.ok`) and a decoded body. -/
inductive FetchOutcome (ε : Type) where
  | netFail : FetchOutcome ε
  | http (ok : Bool) (payload : FeedPayload ε) : FetchOutcome ε

/-- The errors `fetchPublishedEvents` can propagate: the underlying
fetch rejection, `Error("No published events.json yet")` on a non-ok
status, and `Error("Invalid events.json payload")` when `payload.events`
is not an array. -/
inductive FeedErr where
  | fetchFailed : FeedErr
  | badStatus : FeedErr
  | invalidPayload : FeedErr
deriving DecidableEq

/-- The value `fetchPublishedEvents` resolves with on success. -/
structure PublishedEvents (ε : Type) where
  events : List ε
  syncedAt : Int
deriving DecidableEq

/-- The request `fetchPublishedEvents` issues.  `fetch` is called with
the bare URL `events.json?v=${Date.now()}` and no init object, so the
request's cache mode is the browser default (`"default"`, which uses any
intermediate HTTP cache); only the `v` query parameter varies. -/
inductive RequestCacheMode where
  | default : RequestCacheMode
  | noStore : RequestCacheMode
deriving DecidableEq

/-- The feed request as built by `fetchPublishedEvents`: path
`events.json`, cache-busting query parameter `v = Date.now()`, and no
cache-mode override. -/
structure FeedRequest where
  path : String
  cacheBuster : Int
  cacheMode : RequestCacheMode
deriving DecidableEq

/-- `app.js` `fetchPublishedEvents`, request-building part:
`fetch(\x60events.json?v=${cacheBuster}\x60)` with `cacheBuster = Date.now()`
and no second argument to `fetch`. -/
def feedRequest (now : Int) : FeedRequest :=
  { path := "events.json", cacheBuster := now, cacheMode := .default }

/-- `app.js` `fetchPublishedEvents`, response handling: throw on a
non-ok status, throw when `payload.events` is not an array, otherwise
resolve with the events and `payload.syncedAt || new Date().toISOString()`. -/
def fetchPublishedEvents {ε : Type} (now : Int) (resp : FetchOutcome ε) :
    Except FeedErr (PublishedEvents ε) :=
  match resp with
  | .netFail => .error .fetchFailed
  | .http ok payload =>
    if ok = false then .error .badStatus
    else
      match payload.events with
      | none => .error .invalidPayload
      | some evs => .ok ⟨evs, payload.syncedAt.getD now⟩

/-- Everything `loadEvents` does, made explicit: the adopted event list
(`appState.allEvents`), the sync time shown in the label, whether the
feed was fetched, the cache entry written (if any), and the status
message set (if any).  `loadEvents` always returns a `LoadResult` — its
`try`/`catch` absorbs every feed failure, so no error reaches the
caller. -/
structure LoadResult (ε : Type) where
  events : List ε
  reportedSyncedAt : Int
  didFetch : Bool
  cacheWrite : Option (CacheEntry ε)
  status : Option String
deriving DecidableEq

/-- `app.js` `loadEvents({force})`: use the fresh cache without
fetching, otherwise fetch and either adopt the published feed or fall
back to the bundled seeded dataset (`FALLBACK_EVENTS`, passed here as
`fallback`). -/
def loadEvents {ε : Type} (force : Bool) (cached : Option (CacheEntry ε))
    (now : Int) (resp : FetchOutcome ε) (fallback : List ε) : LoadResult ε :=
  if force = false ∧ cacheIsFresh now cached = true then
    { events := (cached.bind (fun c => c.events)).getD []
      reportedSyncedAt := (cached.bind (fun c => c.syncedAt)).getD 0
      didFetch := false
      cacheWrite := none
      status := none }
  else
    match fetchPublishedEvents now resp with
    | .ok pub =>
      { events := pub.events
        reportedSyncedAt := pub.syncedAt
        didFetch := true
        cacheWrite := some ⟨some pub.syncedAt, some pub.events⟩
        status := some "Loaded events from daily published feed." }
    | .error _ =>
      { events := fallback
        reportedSyncedAt := now
        didFetch := true
        cacheWrite := some ⟨some now, some fallback⟩
        status := some "Using fallback dataset. Daily feed unavailable right now." }

/-! ### Geocoding client (`app.js`, `geocodeCity`) -/

/-- One row of the geocoder's JSON response.  The source reads
`display_name` and converts `lat`/`lon` with `Number(...)`; the fields
here hold those numeric conversions (`nan` when the string does not
parse). -/
structure GeoRow where
  display_name : String
  lat : JsNum ℚ
  lon : JsNum ℚ
deriving DecidableEq

/-- The value a successful geocode resolves with (the persisted city
anchor shape `{label, lat, lon}`). -/
structure GeoLocation where
  label : String
  lat : JsNum ℚ
  lon : JsNum ℚ
deriving DecidableEq

/-- The failures `geocodeCity` can propagate: the fetch rejection, or
`Error("Geocoder failed")` on a non-ok status. -/
inductive GeoErr where
  | network : GeoErr
  | badStatus : GeoErr
deriving DecidableEq

/-- The outcome of the single geocoder `fetch`. -/
inductive GeoOutcome where
  | netFail : GeoOutcome
  | http (ok : Bool) (rows : List GeoRow) : GeoOutcome
deriving DecidableEq

/-- `app.js` `geocodeCity`: throw on fetch failure or non-ok status,
resolve `null` on an empty result list, otherwise resolve the first
row's label and numeric coordinates. -/
def geocodeCity (resp : GeoOutcome) : Except GeoErr (Option GeoLocation) :=
  match resp with
  | .netFail => .error .network
  | .http ok rows =>
    if ok = false then .error .badStatus
    else
      match rows with
      | [] => .ok none
      | r :: _ => .ok (some ⟨r.display_name, r.lat, r.lon⟩)

/-- A geocode attempt against a stream of prepared responses: the code
awaits exactly one `fetch`, so exactly one response is consumed and the
rest of the stream is untouched — there is no retry on any outcome. -/
def geocodeSession (responses : List GeoOutcome) :
    Except GeoErr (Option GeoLocation) × List GeoOutcome :=
  match responses with
  | [] => (.error .network, [])
  | r :: rest => (geocodeCity r, rest)

/-! ### Details hand-off (`app.js` `renderCards` click handler and the
details view `init`) -/

/-- The session-storage key written by the card click handler in
`app.js` (`sessionStorage.setItem("usChessSelectedTournament", ...)`). -/
def SELECTED_EVENT_KEY : String := "usChessSelectedTournament"

/-- The session-storage key read by the details view
(`sessionStorage.getItem("usChessSelectedTournament")`).  The repo also
carries a stale earlier variant of the details script that read
`"selectedTournament"`; the shipped version reads the same key the card
handler writes. -/
def DETAILS_READ_KEY : String := "usChessSelectedTournament"

/-- What the session-storage slot can hold once read back: a string that
fails `JSON.parse` (`corrupt`) or the serialized selected card record
(serialization round-trips, so it is modelled by the record itself). -/
inductive StoredSlot (α : Type) where
  | corrupt : StoredSlot α
  | evt (e : VisibleEvent α) : StoredSlot α
deriving DecidableEq

/-- What the details page renders. -/
inductive DetailsView (α : Type) where
  | missing : DetailsView α
  | rendered (e : VisibleEvent α) : DetailsView α
deriving DecidableEq

/-- The card click handler's write: it serializes exactly the one
selected event under `SELECTED_EVENT_KEY` and navigates to
`details.html?id=<event id>`. -/
def openDetailsWrite {α : Type} (e : VisibleEvent α) : String × StoredSlot α :=
  (SELECTED_EVENT_KEY, .evt e)

/-- The details view `init`: read the slot, render the not-found view if
it is absent or unparsable, or if the URL's `id` parameter is falsy
(absent or empty) or differs from the stored record's `id`; otherwise
render the stored event. -/
def detailsInit {α : Type} (urlId : Option String)
    (stored : Option (StoredSlot α)) : DetailsView α :=
  match stored with
  | none => .missing
  | some .corrupt => .missing
  | some (.evt e) =>
    match urlId with
    | none => .missing
    | some i =>
      if i = "" then .missing
      else if e.ev.id = i then .rendered e
      else .missing

/-! ### Helper lemmas about the sort stage -/

theorem mem_insertByDate {α : Type} {w v : VisibleEvent α}
    {l : List (VisibleEvent α)} :
    w ∈ insertByDate v l ↔ w = v ∨ w ∈ l := by
  induction l with
  | nil => simp [insertByDate]
  | cons x xs ih =>
    by_cases h : v.ev.startDate ≤ x.ev.startDate
    · simp [insertByDate, h]
    · simp only [insertByDate, if_neg h, List.mem_cons, ih]
      tauto

theorem mem_sortByStartDate {α : Type} {v : VisibleEvent α}
    {l : List (VisibleEvent α)} :
    v ∈ sortByStartDate l ↔ v ∈ l := by
  induction l with
  | nil => simp [sortByStartDate]
  | cons x xs ih =>
    simp [sortByStartDate, mem_insertByDate, ih]

theorem length_insertByDate {α : Type} (v : VisibleEvent α)
    (l : List (VisibleEvent α)) :
    (insertByDate v l).length = l.length + 1 := by
  induction l with
  | nil => rfl
  | cons x xs ih =>
    by_cases h : v.ev.startDate ≤ x.ev.startDate
    · simp [insertByDate, h]
    · simp [insertByDate, h, ih]

theorem length_sortByStartDate {α : Type} (l : List (VisibleEvent α)) :
    (sortByStartDate l).length = l.length := by
  induction l with
  | nil => rfl
  | cons x xs ih => simp [sortByStartDate, length_insertByDate, ih]

theorem pairwise_insertByDate {α : Type} (v : VisibleEvent α)
    {l : List (VisibleEvent α)}
    (h : l.Pairwise (fun a b => a.ev.startDate ≤ b.ev.startDate)) :
    (insertByDate v l).Pairwise (fun a b => a.ev.startDate ≤ b.ev.startDate) := by
  induction l with
  | nil => simp [insertByDate]
  | cons x xs ih =>
    rcases List.pairwise_cons.mp h with ⟨hx, hxs⟩
    by_cases hle : v.ev.startDate ≤ x.ev.startDate
    · rw [insertByDate, if_pos hle]
      refine List.pairwise_cons.mpr ⟨?_, h⟩
      intro b hb
      rcases List.mem_cons.mp hb with hb | hb
      · exact hb ▸ hle
      · exact le_trans hle (hx b hb)
    · rw [insertByDate, if_neg hle]
      refine List.pairwise_cons.mpr ⟨?_, ih hxs⟩
      intro b hb
      rcases mem_insertByDate.mp hb with hb | hb
      · exact hb ▸ le_of_lt (lt_of_not_le hle)
      · exact hx b hb

theorem pairwise_sortByStartDate {α : Type} (l : List (VisibleEvent α)) :
    (sortByStartDate l).Pairwise (fun a b => a.ev.startDate ≤ b.ev.startDate) := by
  induction l with
  | nil => simp [sortByStartDate]
  | cons x xs ih => exact pairwise_insertByDate x ih

theorem filter_insertByDate {α : Type} (d : Int) (v : VisibleEvent α)
    (l : List (VisibleEvent α)) :
    (insertByDate v l).filter (fun x => x.ev.startDate == d) =
      if v.ev.startDate == d then
        v :: l.filter (fun x => x.ev.startDate == d)
      else l.filter (fun x => x.ev.startDate == d) := by
  induction l with
  | nil =>
    by_cases hv : v.ev.startDate = d
    · simp [insertByDate, List.filter_cons, hv]
    · simp [insertByDate, List.filter_cons, hv]
  | cons w ws ih =>
    by_cases hle : v.ev.startDate ≤ w.ev.startDate
    · rw [insertByDate, if_pos hle]
      by_cases hv : v.ev.startDate = d
      · simp [List.filter_cons, hv]
      · simp [List.filter_cons, hv]
    · rw [insertByDate, if_neg hle]
      by_cases hv : v.ev.startDate = d
      · have hw : ¬ w.ev.startDate = d := by omega
        simp only [List.filter_cons, ih]
        simp [hv, hw]
      · by_cases hw : w.ev.startDate = d
        · simp only [List.filter_cons, ih]
          simp [hv, hw]
        · simp only [List.filter_cons, ih]
          simp [hv, hw]

theorem filter_sortByStartDate {α : Type} (d : Int)
    (l : List (VisibleEvent α)) :
    (sortByStartDate l).filter (fun x => x.ev.startDate == d) =
      l.filter (fun x => x.ev.startDate == d) := by
  induction l with
  | nil => rfl
  | cons v vs ih =>
    rw [sortByStartDate, filter_insertByDate]
    by_cases hv : v.ev.startDate = d
    · simp [List.filter_cons, hv, ih]
    · simp [List.filter_cons, hv, ih]

/-! ### Helper lemmas about the other pipeline stages -/

theorem attachDistance_ev {α : Type}
    (dist : JsNum α → JsNum α → JsNum α → JsNum α → JsNum α)
    (cityAnchor : Option (CityAnchor α)) (e : Event α) :
    (attachDistance dist cityAnchor e).ev = e := by
  cases cityAnchor <;> rfl

theorem filter_withinRadius_none {α : Type} [LinearOrderedField α]
    (l : List (VisibleEvent α)) :
    l.filter (withinRadius none) = l := by
  induction l with
  | nil => rfl
  | cons v vs ih => simp [List.filter_cons, withinRadius, ih]

/-- Membership in the pipeline output comes from a source event that
passed the state filter, was mapped, and passed the radius filter. -/
theorem mem_computeVisibleEvents {α : Type} [LinearOrderedField α]
    {dist : JsNum α → JsNum α → JsNum α → JsNum α → JsNum α}
    {allEvents : List (Event α)} {selectedState : String}
    {cityAnchor : Option (CityAnchor α)} {v : VisibleEvent α}
    (hv : v ∈ computeVisibleEvents dist allEvents selectedState cityAnchor) :
    ∃ e ∈ allEvents, stateMatches selectedState e = true ∧
      v = attachDistance dist cityAnchor e ∧
      withinRadius cityAnchor v = true := by
  unfold computeVisibleEvents at hv
  rw [mem_sortByStartDate] at hv
  rcases List.mem_filter.mp hv with ⟨hmap, hrad⟩
  rcases List.mem_map.mp hmap with ⟨e, hmem, hattach⟩
  rcases List.mem_filter.mp hmem with ⟨hall, hstate⟩
  exact ⟨e, hall, hstate, hattach.symm, hrad⟩

theorem filter_stateMatches_all {α : Type} (l : List (Event α)) :
    l.filter (stateMatches "all") = l := by
  induction l with
  | nil => rfl
  | cons e rest ih => simp [List.filter_cons, stateMatches, ih]

/-! ### Concrete fixtures (used by witnesses) -/

/-- A trivial distance function for running the pipeline on `ℚ`. -/
def distQ : JsNum ℚ → JsNum ℚ → JsNum ℚ → JsNum ℚ → JsNum ℚ :=
  fun _ _ _ _ => JsNum.num 0

/-- A trivial numeric formula for running the `liftJs` pipeline on `ℚ`. -/
def gQ : ℚ → ℚ → ℚ → ℚ → ℚ := fun _ _ _ _ => 0

def evTX : Event ℚ :=
  { id := "evt-1", name := "Texas Open", city := "Dallas", state := "TX",
    venue := "Hall A", startDate := 100, endDate := 101,
    lat := JsNum.num 32, lon := JsNum.num (-96), sourceId := "uschess-tla" }

def evCA : Event ℚ :=
  { id := "evt-2", name := "Bay Area Swiss", city := "San Jose", state := "CA",
    venue := "Hall B", startDate := 50, endDate := 51,
    lat := JsNum.num 37, lon := JsNum.num (-121), sourceId := "chessevents" }

def evNoCoord : Event ℚ :=
  { id := "evt-3", name := "Mystery Open", city := "Austin", state := "TX",
    venue := "Hall C", startDate := 70, endDate := 71,
    lat := JsNum.nan, lon := JsNum.num (-97), sourceId := "chesscontrol" }

def cityQ : CityAnchor ℚ :=
  { label := "Dallas, Texas, United States",
    lat := JsNum.num 32, lon := JsNum.num (-96) }

/-! ### Claims -/

/-- Claim C1: when the selected state is not the sentinel `"all"`, every
event in the output of `computeVisibleEvents` has a state equal to the
selected state; when the selected state is `"all"`, the state-filter
stage keeps every event, so no event is dropped on the basis of its
state. -/
theorem computeVisibleEvents_state {α : Type} [LinearOrderedField α]
    (dist : JsNum α → JsNum α → JsNum α → JsNum α → JsNum α)
    (allEvents : List (Event α)) (selectedState : String)
    (cityAnchor : Option (CityAnchor α)) (v : VisibleEvent α)
    (hall : selectedState ≠ "all")
    (hv : v ∈ computeVisibleEvents dist allEvents selectedState cityAnchor) :
    v.ev.state = selectedState ∧
      allEvents.filter (stateMatches "all") = allEvents := by
  refine ⟨?_, filter_stateMatches_all allEvents⟩
  rcases mem_computeVisibleEvents hv with ⟨e, _, hstate, hattach, _⟩
  have hev : v.ev = e := by rw [hattach, attachDistance_ev]
  rw [hev]
  simpa [stateMatches, if_neg hall] using hstate

/-- Claim C1 witness at a concrete input. -/
theorem computeVisibleEvents_state_witness :
    ("TX" ≠ "all") ∧
      ((⟨evTX, none⟩ : VisibleEvent ℚ) ∈
        computeVisibleEvents distQ [evTX, evCA] "TX" none) ∧
      ((⟨evTX, none⟩ : VisibleEvent ℚ).ev.state = "TX" ∧
        [evTX, evCA].filter (stateMatches "all") = [evTX, evCA]) :=
  ⟨by decide, by decide,
    computeVisibleEvents_state distQ [evTX, evCA] "TX" none ⟨evTX, none⟩
      (by decide) (by decide)⟩

/-- Claim C2: with a city anchor present, every pipeline output record
carries the distance computed by the distance function from the anchor
to its own coordinates, that distance passes the 100-mile radius test
(so it is an actual number, not `NaN`, and does not exceed
`SEARCH_RADIUS_MILES`); with no anchor every output record's distance is
`null` and the radius stage drops nothing — the output is exactly the
sorted state-filtered list.  The two halves are stated independently,
so each applies to every input list and anchor, including inputs whose
anchored output is empty. -/
theorem computeVisibleEvents_distance {α : Type} [LinearOrderedField α]
    (dist : JsNum α → JsNum α → JsNum α → JsNum α → JsNum α)
    (allEvents : List (Event α)) (selectedState : String)
    (c : CityAnchor α) :
    (∀ v ∈ computeVisibleEvents dist allEvents selectedState (some c),
        v.distance = some (dist c.lat c.lon v.ev.lat v.ev.lon) ∧
          jsLe v.distance SEARCH_RADIUS_MILES = true ∧
          v.distance ≠ some JsNum.nan) ∧
      (∀ w ∈ computeVisibleEvents dist allEvents selectedState none,
        w.distance = none) ∧
      computeVisibleEvents dist allEvents selectedState none =
        sortByStartDate ((allEvents.filter (stateMatches selectedState)).map
          (attachDistance dist none)) ∧
      (computeVisibleEvents dist allEvents selectedState none).length =
        (allEvents.filter (stateMatches selectedState)).length := by
  refine ⟨?_, ?_, ?_, ?_⟩
  · intro v hv
    rcases mem_computeVisibleEvents hv with ⟨e, _, _, hattach, hrad⟩
    have hev : v.ev = e := by rw [hattach, attachDistance_ev]
    have hd : v.distance = some (dist c.lat c.lon e.lat e.lon) := by
      rw [hattach]; rfl
    have hj : jsLe v.distance SEARCH_RADIUS_MILES = true := by
      simpa [withinRadius] using hrad
    refine ⟨by rw [hd, hev], hj, ?_⟩
    intro hcontra
    rw [hcontra] at hj
    simp [jsLe] at hj
  · intro w hw
    rcases mem_computeVisibleEvents hw with ⟨f, _, _, hattachw, _⟩
    rw [hattachw]; rfl
  · unfold computeVisibleEvents
    rw [filter_withinRadius_none]
  · unfold computeVisibleEvents
    rw [filter_withinRadius_none, length_sortByStartDate, List.length_map]

/-- Claim C2 witness at a concrete input: applying the theorem and
instantiating both membership premises concretely — one event in the
anchored output and one in the anchor-free output. -/
theorem computeVisibleEvents_distance_witness :
    ((⟨evTX, some (JsNum.num 0)⟩ : VisibleEvent ℚ).distance =
        some (distQ cityQ.lat cityQ.lon evTX.lat evTX.lon) ∧
      jsLe (⟨evTX, some (JsNum.num 0)⟩ : VisibleEvent ℚ).distance
          SEARCH_RADIUS_MILES = true ∧
      (⟨evTX, some (JsNum.num 0)⟩ : VisibleEvent ℚ).distance ≠
        some JsNum.nan) ∧
      (⟨evTX, none⟩ : VisibleEvent ℚ).distance = none ∧
      computeVisibleEvents distQ [evTX] "all" none =
        sortByStartDate (([evTX].filter (stateMatches "all")).map
          (attachDistance distQ none)) ∧
      (computeVisibleEvents distQ [evTX] "all" none).length =
        ([evTX].filter (stateMatches "all")).length := by
  have h := computeVisibleEvents_distance distQ [evTX] "all" cityQ
  exact ⟨h.1 ⟨evTX, some (JsNum.num 0)⟩ (by decide),
    h.2.1 ⟨evTX, none⟩ (by decide), h.2.2.1, h.2.2.2⟩

/-- Claim C3: the pipeline output is sorted non-decreasing by start
date, and it is a stable sort — for every date, the output's events with
that start date are exactly, and in the same order as, the events with
that date in the pre-sort stage, which itself is an order-preserving
selection from the input list (its underlying events form a sublist of
the input). -/
theorem computeVisibleEvents_sorted_stable {α : Type} [LinearOrderedField α]
    (dist : JsNum α → JsNum α → JsNum α → JsNum α → JsNum α)
    (allEvents : List (Event α)) (selectedState : String)
    (cityAnchor : Option (CityAnchor α)) (d : Int) :
    (computeVisibleEvents dist allEvents selectedState cityAnchor).Pairwise
        (fun a b => a.ev.startDate ≤ b.ev.startDate) ∧
      (computeVisibleEvents dist allEvents selectedState cityAnchor).filter
          (fun v => v.ev.startDate == d) =
        (((allEvents.filter (stateMatches selectedState)).map
            (attachDistance dist cityAnchor)).filter
          (withinRadius cityAnchor)).filter (fun v => v.ev.startDate == d) ∧
      ((((allEvents.filter (stateMatches selectedState)).map
            (attachDistance dist cityAnchor)).filter
          (withinRadius cityAnchor)).map (fun v => v.ev)).Sublist allEvents := by
  refine ⟨pairwise_sortByStartDate _, filter_sortByStartDate d _, ?_⟩
  have h1 : ((((allEvents.filter (stateMatches selectedState)).map
      (attachDistance dist cityAnchor)).filter
        (withinRadius cityAnchor)).map (fun v => v.ev)).Sublist
      (((allEvents.filter (stateMatches selectedState)).map
        (attachDistance dist cityAnchor)).map (fun v => v.ev)) :=
    (List.filter_sublist _).map _
  have h2 : (((allEvents.filter (stateMatches selectedState)).map
      (attachDistance dist cityAnchor)).map (fun v => v.ev)) =
      allEvents.filter (stateMatches selectedState) := by
    rw [List.map_map]
    have h3 : ((fun v : VisibleEvent α => v.ev) ∘
        attachDistance dist cityAnchor) = id := by
      funext e
      simp [attachDistance_ev]
    rw [h3, List.map_id]
  rw [h2] at h1
  exact h1.trans (List.filter_sublist _)

theorem liftJs_nan_coord {α : Type} (g : α → α → α → α → α)
    (a b l o : JsNum α) (h : (l.isNan || o.isNan) = true) :
    liftJs g a b l o = JsNum.nan := by
  cases a <;> cases b <;> cases l <;> cases o <;>
    simp_all [liftJs, JsNum.isNan]

theorem preSort_nan_filter {α : Type} [LinearOrderedField α]
    (g : α → α → α → α → α) (selectedState : String) (c : CityAnchor α)
    (allEvents : List (Event α)) :
    (((allEvents.filter (fun x => !(x.lat.isNan || x.lon.isNan))).filter
        (stateMatches selectedState)).map
      (attachDistance (liftJs g) (some c))).filter (withinRadius (some c)) =
    ((allEvents.filter (stateMatches selectedState)).map
      (attachDistance (liftJs g) (some c))).filter (withinRadius (some c)) := by
  rw [List.filter_map, List.filter_map, List.filter_filter,
    List.filter_filter, List.filter_filter]
  congr 1
  apply List.filter_congr
  intro e _
  by_cases hgood : (e.lat.isNan || e.lon.isNan) = true
  · have hnan : liftJs g c.lat c.lon e.lat e.lon = JsNum.nan :=
      liftJs_nan_coord g _ _ _ _ hgood
    simp [Function.comp, withinRadius, attachDistance, jsLe, hnan, hgood]
  · simp [Function.comp, hgood]

/-- Claim C10: with a city anchor present, an event whose latitude or
longitude is missing or not a number is excluded from the pipeline
output — the distance computed for it by the (`NaN`-propagating) lifted
formula is `NaN`, the radius comparison is therefore `false`, and the
output equals the pipeline run on the input with such events removed —
even though with no city anchor such an event is included (with a `null`
distance). -/
theorem computeVisibleEvents_nan_excluded {α : Type} [LinearOrderedField α]
    (g : α → α → α → α → α) (allEvents : List (Event α))
    (selectedState : String) (c : CityAnchor α) (e : Event α)
    (he : e ∈ allEvents) (hst : stateMatches selectedState e = true)
    (_hnan : (e.lat.isNan || e.lon.isNan) = true) :
    computeVisibleEvents (liftJs g) allEvents selectedState (some c) =
      computeVisibleEvents (liftJs g)
        (allEvents.filter (fun x => !(x.lat.isNan || x.lon.isNan)))
        selectedState (some c) ∧
      (⟨e, none⟩ : VisibleEvent α) ∈
        computeVisibleEvents (liftJs g) allEvents selectedState none := by
  constructor
  · unfold computeVisibleEvents
    rw [preSort_nan_filter]
  · unfold computeVisibleEvents
    rw [mem_sortByStartDate, filter_withinRadius_none]
    exact List.mem_map.mpr ⟨e, List.mem_filter.mpr ⟨he, hst⟩, rfl⟩

/-- Claim C10 witness at a concrete input. -/
theorem computeVisibleEvents_nan_excluded_witness :
    (evNoCoord ∈ [evTX, evNoCoord]) ∧
      (stateMatches "all" evNoCoord = true) ∧
      ((evNoCoord.lat.isNan || evNoCoord.lon.isNan) = true) ∧
      (computeVisibleEvents (liftJs gQ) [evTX, evNoCoord] "all" (some cityQ) =
          computeVisibleEvents (liftJs gQ)
            ([evTX, evNoCoord].filter (fun x => !(x.lat.isNan || x.lon.isNan)))
            "all" (some cityQ) ∧
        (⟨evNoCoord, none⟩ : VisibleEvent ℚ) ∈
          computeVisibleEvents (liftJs gQ) [evTX, evNoCoord] "all" none) :=
  ⟨by decide, by decide, by decide,
    computeVisibleEvents_nan_excluded gQ [evTX, evNoCoord] "all" cityQ
      evNoCoord (by decide) (by decide) (by decide)⟩

/-- Claim C4: with `force = false` and a cached entry that has a
`syncedAt` less than the TTL old and a list-valued `events` field,
`loadEvents` does not fetch, adopts exactly the cached list, and reports
the cached `syncedAt`; an entry whose `syncedAt` is at least the TTL
old, or which lacks `syncedAt`, or whose `events` is not a list, is
stale (`cacheIsFresh` is `false`) and a fetch occurs. -/
theorem loadEvents_fresh_cache {ε : Type} (cached : Option (CacheEntry ε))
    (now t : Int) (resp : FetchOutcome ε) (fallback : List ε)
    (evs : List ε) (t2 : Int) (e2 : Option (List ε)) (t3 : Option Int)
    (hc : cached = some ⟨some t, some evs⟩)
    (hfresh : now - t < CACHE_TTL_MS)
    (hold : CACHE_TTL_MS ≤ now - t2) :
    loadEvents false cached now resp fallback =
        ⟨evs, t, false, none, none⟩ ∧
      cacheIsFresh now (some (⟨some t2, e2⟩ : CacheEntry ε)) = false ∧
      (loadEvents false (some ⟨some t2, e2⟩) now resp fallback).didFetch
          = true ∧
      (loadEvents false (some ⟨none, e2⟩) now resp fallback).didFetch
          = true ∧
      (loadEvents false (some ⟨t3, none⟩) now resp fallback).didFetch
          = true := by
  have stale : ∀ c : CacheEntry ε, cacheIsFresh now (some c) = false →
      (loadEvents false (some c) now resp fallback).didFetch = true := by
    intro c hcf
    unfold loadEvents
    rw [if_neg (by simp [hcf])]
    split <;> rfl
  have h2 : cacheIsFresh now (some (⟨some t2, e2⟩ : CacheEntry ε)) = false := by
    cases e2 with
    | none => rfl
    | some l2 =>
      simp only [cacheIsFresh, decide_eq_false_iff_not]
      omega
  have h3 : cacheIsFresh now (some (⟨none, e2⟩ : CacheEntry ε)) = false := by
    cases e2 <;> rfl
  have h4 : cacheIsFresh now (some (⟨t3, none⟩ : CacheEntry ε)) = false := by
    cases t3 <;> rfl
  refine ⟨?_, h2, stale _ h2, stale _ h3, stale _ h4⟩
  subst hc
  have hf : cacheIsFresh now (some (⟨some t, some evs⟩ : CacheEntry ε))
      = true := by
    simp only [cacheIsFresh, decide_eq_true_eq]
    exact hfresh
  unfold loadEvents
  rw [if_pos ⟨rfl, hf⟩]
  rfl

/-- Claim C4 witness at a concrete input. -/
theorem loadEvents_fresh_cache_witness :
    (some (⟨some 500, some [evTX]⟩ : CacheEntry (Event ℚ)) =
        some ⟨some 500, some [evTX]⟩) ∧
      ((1000 : Int) - 500 < CACHE_TTL_MS) ∧
      (CACHE_TTL_MS ≤ (1000 : Int) - (-86400000)) ∧
      (loadEvents false (some ⟨some 500, some [evTX]⟩) 1000
            (FetchOutcome.netFail (ε := Event ℚ)) [] =
          ⟨[evTX], 500, false, none, none⟩ ∧
        cacheIsFresh 1000
            (some (⟨some (-86400000), some []⟩ : CacheEntry (Event ℚ)))
          = false ∧
        (loadEvents false (some ⟨some (-86400000), some []⟩) 1000
            (FetchOutcome.netFail (ε := Event ℚ)) []).didFetch = true ∧
        (loadEvents false (some ⟨none, some []⟩) 1000
            (FetchOutcome.netFail (ε := Event ℚ)) []).didFetch = true ∧
        (loadEvents false (some ⟨none, none⟩) 1000
            (FetchOutcome.netFail (ε := Event ℚ)) []).didFetch = true) :=
  ⟨rfl, by decide, by decide,
    loadEvents_fresh_cache (some ⟨some 500, some [evTX]⟩) 1000 500
      FetchOutcome.netFail [] [evTX] (-86400000) (some []) none
      rfl (by decide) (by decide)⟩

/-- Claim C5: whenever the fetch path is taken (`force` or a stale
cache) and `fetchPublishedEvents` fails — the fetch rejects, the HTTP
status is not ok, or the payload's `events` field is not a list —
`loadEvents` adopts the bundled fallback dataset, persists
`{events: fallback, syncedAt: now}` to the cache, and reports the
degraded-mode status string.  `loadEvents` is a total function into
`LoadResult`: the `try`/`catch` absorbs the failure and no error
propagates to the caller. -/
theorem loadEvents_absorbs_failure {ε : Type} (force : Bool)
    (cached : Option (CacheEntry ε)) (now : Int) (resp : FetchOutcome ε)
    (fallback : List ε) (err : FeedErr) (p1 p2 : FeedPayload ε)
    (hfail : fetchPublishedEvents now resp = .error err)
    (hfetch : force = true ∨ cacheIsFresh now cached = false)
    (hp1 : p1.events = none) :
    loadEvents force cached now resp fallback =
        ⟨fallback, now, true, some ⟨some now, some fallback⟩,
          some "Using fallback dataset. Daily feed unavailable right now."⟩ ∧
      fetchPublishedEvents now (.http false p2) = .error .badStatus ∧
      fetchPublishedEvents now (.http true p1) = .error .invalidPayload := by
  refine ⟨?_, rfl, by simp [fetchPublishedEvents, hp1]⟩
  have hcond : ¬(force = false ∧ cacheIsFresh now cached = true) := by
    rintro ⟨hf, ht⟩
    rcases hfetch with h | h
    · rw [h] at hf
      exact absurd hf (by simp)
    · rw [h] at ht
      exact absurd ht (by simp)
  unfold loadEvents
  rw [if_neg hcond, hfail]

/-- Claim C5 witness at a concrete input. -/
theorem loadEvents_absorbs_failure_witness :
    (fetchPublishedEvents 7 (FetchOutcome.http false
          (⟨none, none⟩ : FeedPayload (Event ℚ))) =
        .error FeedErr.badStatus) ∧
      (true = true ∨ cacheIsFresh 7 (none : Option (CacheEntry (Event ℚ)))
        = false) ∧
      ((⟨none, some 3⟩ : FeedPayload (Event ℚ)).events = none) ∧
      (loadEvents true none 7
            (FetchOutcome.http false (⟨none, none⟩ : FeedPayload (Event ℚ)))
            [evTX] =
          ⟨[evTX], 7, true, some ⟨some 7, some [evTX]⟩,
            some "Using fallback dataset. Daily feed unavailable right now."⟩ ∧
        fetchPublishedEvents 7 (.http false (⟨some [], some 9⟩ :
            FeedPayload (Event ℚ))) = .error .badStatus ∧
        fetchPublishedEvents 7 (.http true (⟨none, some 3⟩ :
            FeedPayload (Event ℚ))) = .error .invalidPayload) :=
  ⟨rfl, Or.inl rfl, rfl,
    loadEvents_absorbs_failure true none 7
      (FetchOutcome.http false ⟨none, none⟩) [evTX] FeedErr.badStatus
      ⟨none, some 3⟩ ⟨some [], some 9⟩ rfl (Or.inl rfl) rfl⟩

/-- Claim C6, counterexample to the claim as stated: the details view is
claimed to render the stored event exactly when the stored record's
identifier equals the URL's `id` query parameter; but for a stored
record whose identifier is the empty string and a URL carrying `id=`
(the empty value), the identifiers are equal and the view still renders
the not-found view, because `!eventId` treats the empty parameter as
missing. -/
theorem detailsInit_claim_counterexample :
    ¬ (∀ (stored : Option (StoredSlot ℚ)) (urlId : Option String)
        (e : VisibleEvent ℚ),
        detailsInit urlId stored = .rendered e ↔
          stored = some (.evt e) ∧ urlId = some e.ev.id) := by
  intro h
  have h2 := (h (some (.evt ⟨⟨"", "n", "c", "TX", "v", 0, 0,
      JsNum.num 0, JsNum.num 0, "s"⟩, none⟩)) (some "")
      ⟨⟨"", "n", "c", "TX", "v", 0, 0, JsNum.num 0, JsNum.num 0, "s"⟩,
        none⟩).mpr ⟨rfl, rfl⟩
  exact absurd h2 (by decide)

/-- Claim C6, amended: the card click handler serializes exactly the one
selected event into the session-scoped slot under the fixed key, the
details view reads the same key, and it renders the stored event exactly
when the slot holds that record, parsing succeeds, and the URL's `id`
parameter is present, non-empty and equal to the stored record's
identifier; on any other input — absent slot, parse failure, missing or
empty `id`, or mismatch — it renders the not-found view. -/
theorem detailsInit_renders {α : Type} (stored : Option (StoredSlot α))
    (urlId : Option String) (e : VisibleEvent α) :
    SELECTED_EVENT_KEY = DETAILS_READ_KEY ∧
      openDetailsWrite e = (DETAILS_READ_KEY, StoredSlot.evt e) ∧
      (detailsInit urlId stored = .rendered e ↔
        stored = some (.evt e) ∧ urlId = some e.ev.id ∧ e.ev.id ≠ "") := by
  refine ⟨rfl, rfl, ?_⟩
  cases stored with
  | none => simp [detailsInit]
  | some s =>
    cases s with
    | corrupt => simp [detailsInit]
    | evt f =>
      cases urlId with
      | none => simp [detailsInit]
      | some i =>
        by_cases hi : i = ""
        · subst hi
          simp only [detailsInit, if_pos rfl]
          constructor
          · intro h
            exact absurd h (by simp)
          · rintro ⟨-, hid, hne⟩
            exact absurd (Option.some_injective _ hid).symm hne
        · by_cases hid : f.ev.id = i
          · simp only [detailsInit, if_neg hi, if_pos hid]
            constructor
            · intro h
              have hfe : f = e := by
                injection h
              subst hfe
              exact ⟨rfl, by rw [hid], by rw [hid]; exact hi⟩
            · rintro ⟨hs, -, -⟩
              have : f = e := by
                injection (Option.some_injective _ hs)
              rw [this]
          · simp only [detailsInit, if_neg hi, if_neg hid]
            constructor
            · intro h
              exact absurd h (by simp)
            · rintro ⟨hs, hu, -⟩
              have hfe : f = e := by
                injection (Option.some_injective _ hs)
              subst hfe
              exact absurd (Option.some_injective _ hu).symm hid

/-- Claim C7: the geocoding client resolves `null` for a successful
response with zero rows (city not found, not an error), propagates an
error when the fetch rejects or the HTTP status is not ok, otherwise
resolves the first row's label and numeric coordinates — and a geocode
session consumes exactly one response from the prepared stream, so no
retry is performed on any outcome. -/
theorem geocodeCity_spec (rows : List GeoRow) (r : GeoRow)
    (rest : List GeoOutcome) (resp : GeoOutcome) :
    geocodeCity (.http true []) = .ok none ∧
      geocodeCity .netFail = .error .network ∧
      geocodeCity (.http false rows) = .error .badStatus ∧
      geocodeCity (.http true (r :: rows)) =
        .ok (some ⟨r.display_name, r.lat, r.lon⟩) ∧
      geocodeSession (resp :: rest) = (geocodeCity resp, rest) :=
  ⟨rfl, rfl, rfl, rfl, rfl⟩

/-- Claim C8: `haversineMiles` is a total function (it is defined for
all real inputs; `Real.sqrt` and `Real.arcsin` are total), it is
symmetric in its two coordinate pairs, and it returns zero — exactly,
in the idealized real-number semantics — whenever the two points
coincide. -/
theorem haversineMiles_symm_zero :
    (∀ lat1 lon1 lat2 lon2 : ℝ,
        haversineMiles lat1 lon1 lat2 lon2 =
          haversineMiles lat2 lon2 lat1 lon1) ∧
      ∀ lat lon : ℝ, haversineMiles lat lon lat lon = 0 := by
  constructor
  · intro lat1 lon1 lat2 lon2
    unfold haversineMiles toRad
    have key1 : Real.sin ((lat1 - lat2) * Real.pi / 180 / 2) ^ 2 =
        Real.sin ((lat2 - lat1) * Real.pi / 180 / 2) ^ 2 := by
      rw [show (lat1 - lat2) * Real.pi / 180 / 2 =
          -((lat2 - lat1) * Real.pi / 180 / 2) by ring, Real.sin_neg]
      ring
    have key2 : Real.sin ((lon1 - lon2) * Real.pi / 180 / 2) ^ 2 =
        Real.sin ((lon2 - lon1) * Real.pi / 180 / 2) ^ 2 := by
      rw [show (lon1 - lon2) * Real.pi / 180 / 2 =
          -((lon2 - lon1) * Real.pi / 180 / 2) by ring, Real.sin_neg]
      ring
    rw [key1, key2,
      mul_comm (Real.cos (lat2 * Real.pi / 180))
        (Real.cos (lat1 * Real.pi / 180))]
  · intro lat lon
    unfold haversineMiles toRad
    simp

/-- Claim C9, counterexample to the claim as stated: the feed request is
claimed to disable any intermediate HTTP cache, but `fetch` is called
with no init object, so the request's cache mode is the browser default
rather than a cache-disabling mode. -/
theorem feedRequest_no_cache_disable :
    (feedRequest 0).cacheMode ≠ RequestCacheMode.noStore := by decide

/-- Claim C9, amended: whenever the loader goes to the network, the feed
request carries the cache-defeating query parameter `v = Date.now()`,
which differs across calls made at different times; no HTTP
cache-disabling option is set on the request — it relies on the unique
URL alone, leaving the cache mode at the browser default. -/
theorem feedRequest_cacheBusting (t1 t2 t : Int) (h : t1 ≠ t2) :
    feedRequest t1 ≠ feedRequest t2 ∧
      (feedRequest t).cacheBuster = t ∧
      (feedRequest t).cacheMode = .default := by
  refine ⟨?_, rfl, rfl⟩
  intro heq
  exact h (congrArg FeedRequest.cacheBuster heq)

/-- Claim C9 witness at a concrete input. -/
theorem feedRequest_cacheBusting_witness :
    ((0 : Int) ≠ 1) ∧
      (feedRequest 0 ≠ feedRequest 1 ∧
        (feedRequest 5).cacheBuster = 5 ∧
        (feedRequest 5).cacheMode = .default) :=
  ⟨by decide, feedRequest_cacheBusting 0 1 5 (by decide)⟩
